import Mathlib

/-!
Verification of the microSWIFT configurator core: the feasibility validator
(`verifySettings`), the binary encoder (`assembleBinaryConfigFile`), and the
match-GNSS derived-field handlers, shallowly embedded from
`src/microSWIFT_programmer.py`.

Modelling conventions:
* Python integers from the spin boxes are `Nat` (they are nonnegative and
  bounded by the widget ranges).
* Python float arithmetic in the validator is modelled by exact rational
  arithmetic (`ℚ`).  On the operating domain (values ≤ 32768, divisors in
  4, 5, 30, 60, 2) every comparison against 0 and every `int` truncation
  performed by the source has the same result for IEEE doubles and exact
  rationals: a nonzero exact value of any compared expression is bounded
  away from the decision boundary by at least 1/300 while the accumulated
  float rounding error is below 1e-9.
* Python `int(x)` applied to a nonnegative float is `Int.floor`.
* `struct.pack`, which raises `struct.error` on an out-of-range field, is
  modelled as an `Option`-returning packer; `none` is the raised error.
* Python float division, which raises `ZeroDivisionError` on a zero divisor,
  is modelled for the totality analysis by an `Except`-returning division.
* `QSpinBox.setValue` clamps its argument into the `[minimum, maximum]`
  range the spin box was constructed with; `qtSetValue` reproduces this.
* A Qt `valueChanged` / `currentIndexChanged` signal fires only when the
  stored value actually changes, so the mutation models are the identity
  when the new value equals the old one.
-/

/-- The operator-configurable parameters, one field per widget of the form
(spin boxes, radio buttons, check boxes, combo boxes) read by the validator,
the encoder and the handlers.  `gnss_sample_rate_hz` is the integer parsed
out of the sample-rate combo box text ("4 Hz" / "5 Hz");
`iridium_modem_is_v3f` is the comparison of the modem combo box text with
"V3F". -/
structure ParameterSet where
  tracking_number : Nat
  gnss_samples_per_window : Nat
  duty_cycle_minutes : Nat
  iridium_tx_minutes : Nat
  gnss_max_acquisition_minutes : Nat
  gnss_sample_rate_hz : Nat
  ct_samples : Nat
  temp_samples : Nat
  light_samples : Nat
  turbidity_samples : Nat
  iridium_modem_is_v3f : Bool
  gnss_high_performance_mode : Bool
  ct_enabled : Bool
  temperature_enabled : Bool
  light_enabled : Bool
  turbidity_enabled : Bool
  light_match_gnss : Bool
  turbidity_match_gnss : Bool
deriving Repr, DecidableEq

def FIRMWARE_MAJOR_VERSION : Nat := 2

def FIRMWARE_MINOR_VERSION : Nat := 2

/-- Widget ranges, from the spin box constructions in `setupUi` and the two
combo boxes filled in `fillComboBoxes`. -/
def InRange (p : ParameterSet) : Prop :=
  p.tracking_number ≤ 1000 ∧
  1024 ≤ p.gnss_samples_per_window ∧ p.gnss_samples_per_window ≤ 32768 ∧
  p.duty_cycle_minutes ≤ 1440 ∧
  2 ≤ p.iridium_tx_minutes ∧ p.iridium_tx_minutes ≤ 60 ∧
  1 ≤ p.gnss_max_acquisition_minutes ∧ p.gnss_max_acquisition_minutes ≤ 30 ∧
  (p.gnss_sample_rate_hz = 4 ∨ p.gnss_sample_rate_hz = 5) ∧
  1 ≤ p.ct_samples ∧ p.ct_samples ≤ 1000 ∧
  1 ≤ p.temp_samples ∧ p.temp_samples ≤ 1000 ∧
  1 ≤ p.light_samples ∧ p.light_samples ≤ 1800 ∧
  1 ≤ p.turbidity_samples ∧ p.turbidity_samples ≤ 3600

instance (p : ParameterSet) : Decidable (InRange p) := by
  unfold InRange; infer_instance

/- The six diagnostic strings appended by `verifySettings`. -/

def gnssWindowMsg : String := "Duty cycle not long enough to complete GNSS sample window.\n"

def ctWindowMsg : String := "CT sampling window greater than allotted time of 2 mins.\n"

def lightWindowMsg : String := "Duty cycle not long enough to complete Light sample window.\n"

def lightMaxMsg : String := "Max number of light samples is 1800.\n"

def turbidityWindowMsg : String := "Duty cycle not long enough to complete Turbidity sample window.\n"

def turbidityMaxMsg : String := "Max number of turbidity samples is 3600.\n"

/-- The validator `verifySettings`, embedded from the source.  The imperative accumulation
into `verify_strings` / `settings_invalid` is rendered as the chain of state
pairs `st1 … st4`; the second component is the final `settings_invalid`
flag, so the verdict shown to the operator is Valid exactly when it is
`false`. -/
def verifySettings (p : ParameterSet) : List String × Bool :=
  let ct_enabled := p.ct_enabled
  let ct_num_samples : ℚ := p.ct_samples
  let light_enabled := p.light_enabled
  let light_num_samples : ℚ := p.light_samples
  let turbidity_enabled := p.turbidity_enabled
  let turbidity_num_samples : ℚ := p.turbidity_samples
  let iridium_tx_time : ℚ := p.iridium_tx_minutes
  let num_gnss_samples : ℚ := p.gnss_samples_per_window
  let gnss_sample_rate : ℚ := p.gnss_sample_rate_hz
  let duty_cycle : ℚ := p.duty_cycle_minutes
  let gnss_window_buffer : ℚ := p.gnss_max_acquisition_minutes
  let gnss_duration : ℚ := (((num_gnss_samples / gnss_sample_rate) / 60) + 1) + gnss_window_buffer
  let st1 : List String × Bool :=
    if (duty_cycle - gnss_duration - iridium_tx_time) < 0 then
      ([gnssWindowMsg], true)
    else ([], false)
  let st2 : List String × Bool :=
    if ct_enabled = true ∧ (((ct_num_samples * 2) + 20) / 60) > 2 then
      (st1.1 ++ [ctWindowMsg], true)
    else st1
  let st3 : List String × Bool :=
    if light_enabled = true then
      let st3a : List String × Bool :=
        if (duty_cycle - ((light_num_samples / 30) + 1) - iridium_tx_time) < 0 then
          (st2.1 ++ [lightWindowMsg], true)
        else st2
      if ⌊(num_gnss_samples / gnss_sample_rate) / 2⌋ > 1800 then
        (st3a.1 ++ [lightMaxMsg], true)
      else st3a
    else st2
  let st4 : List String × Bool :=
    if turbidity_enabled = true then
      let st4a : List String × Bool :=
        if (duty_cycle - ((turbidity_num_samples / 60) + 1) - iridium_tx_time) < 0 then
          (st3.1 ++ [turbidityWindowMsg], true)
        else st3
      if ⌊num_gnss_samples / gnss_sample_rate⌋ > 3600 then
        (st4a.1 ++ [turbidityMaxMsg], true)
      else st4a
    else st3
  st4

/-- Python float division: raises `ZeroDivisionError` on a zero divisor. -/
def pyDiv (a b : ℚ) : Except String ℚ :=
  if b = 0 then Except.error "ZeroDivisionError: float division by zero"
  else Except.ok (a / b)

/-- The validator `verifySettings` with the failure behaviour of Python division made
explicit: each of the three source sites that divides by the variable
sample-rate value goes through `pyDiv` (divisions by the constants
60, 30 and 2 cannot raise). -/
def verifySettingsE (p : ParameterSet) : Except String (List String × Bool) := do
  let ct_enabled := p.ct_enabled
  let ct_num_samples : ℚ := p.ct_samples
  let light_enabled := p.light_enabled
  let light_num_samples : ℚ := p.light_samples
  let turbidity_enabled := p.turbidity_enabled
  let turbidity_num_samples : ℚ := p.turbidity_samples
  let iridium_tx_time : ℚ := p.iridium_tx_minutes
  let num_gnss_samples : ℚ := p.gnss_samples_per_window
  let gnss_sample_rate : ℚ := p.gnss_sample_rate_hz
  let duty_cycle : ℚ := p.duty_cycle_minutes
  let gnss_window_buffer : ℚ := p.gnss_max_acquisition_minutes
  let q1 ← pyDiv num_gnss_samples gnss_sample_rate
  let gnss_duration : ℚ := ((q1 / 60) + 1) + gnss_window_buffer
  let st1 : List String × Bool :=
    if (duty_cycle - gnss_duration - iridium_tx_time) < 0 then
      ([gnssWindowMsg], true)
    else ([], false)
  let st2 : List String × Bool :=
    if ct_enabled = true ∧ (((ct_num_samples * 2) + 20) / 60) > 2 then
      (st1.1 ++ [ctWindowMsg], true)
    else st1
  let st3 ← if light_enabled = true then do
      let st3a : List String × Bool :=
        if (duty_cycle - ((light_num_samples / 30) + 1) - iridium_tx_time) < 0 then
          (st2.1 ++ [lightWindowMsg], true)
        else st2
      let q2 ← pyDiv num_gnss_samples gnss_sample_rate
      pure (if ⌊q2 / 2⌋ > 1800 then (st3a.1 ++ [lightMaxMsg], true) else st3a)
    else pure st2
  let st4 ← if turbidity_enabled = true then do
      let st4a : List String × Bool :=
        if (duty_cycle - ((turbidity_num_samples / 60) + 1) - iridium_tx_time) < 0 then
          (st3.1 ++ [turbidityWindowMsg], true)
        else st3
      let q3 ← pyDiv num_gnss_samples gnss_sample_rate
      pure (if ⌊q3⌋ > 3600 then (st4a.1 ++ [turbidityMaxMsg], true) else st4a)
    else pure st3
  pure st4

/- Claim-side predicates: one independent feasibility condition per
diagnostic string appended by the source. -/

def gnssWindowFail (p : ParameterSet) : Prop :=
  (p.duty_cycle_minutes : ℚ) -
      ((((p.gnss_samples_per_window : ℚ) / (p.gnss_sample_rate_hz : ℚ)) / 60 + 1) +
        (p.gnss_max_acquisition_minutes : ℚ)) -
      (p.iridium_tx_minutes : ℚ) < 0

def ctWindowFail (p : ParameterSet) : Prop :=
  p.ct_enabled = true ∧ (((p.ct_samples : ℚ) * 2) + 20) / 60 > 2

def lightWindowFail (p : ParameterSet) : Prop :=
  p.light_enabled = true ∧
    (p.duty_cycle_minutes : ℚ) - (((p.light_samples : ℚ) / 30) + 1) -
      (p.iridium_tx_minutes : ℚ) < 0

def lightMaxFail (p : ParameterSet) : Prop :=
  p.light_enabled = true ∧
    ⌊((p.gnss_samples_per_window : ℚ) / (p.gnss_sample_rate_hz : ℚ)) / 2⌋ > 1800

def turbidityWindowFail (p : ParameterSet) : Prop :=
  p.turbidity_enabled = true ∧
    (p.duty_cycle_minutes : ℚ) - (((p.turbidity_samples : ℚ) / 60) + 1) -
      (p.iridium_tx_minutes : ℚ) < 0

def turbidityMaxFail (p : ParameterSet) : Prop :=
  p.turbidity_enabled = true ∧
    ⌊(p.gnss_samples_per_window : ℚ) / (p.gnss_sample_rate_hz : ℚ)⌋ > 3600

instance (p : ParameterSet) : Decidable (gnssWindowFail p) := by
  unfold gnssWindowFail; infer_instance

instance (p : ParameterSet) : Decidable (ctWindowFail p) := by
  unfold ctWindowFail; infer_instance

instance (p : ParameterSet) : Decidable (lightWindowFail p) := by
  unfold lightWindowFail; infer_instance

instance (p : ParameterSet) : Decidable (lightMaxFail p) := by
  unfold lightMaxFail; infer_instance

instance (p : ParameterSet) : Decidable (turbidityWindowFail p) := by
  unfold turbidityWindowFail; infer_instance

instance (p : ParameterSet) : Decidable (turbidityMaxFail p) := by
  unfold turbidityMaxFail; infer_instance

/-- Whole minutes needed for a sampling duration given in seconds, rounded
up, as used by the specification for the GNSS timing budget. -/
def ceil_minutes (q : ℚ) : ℤ := ⌈q / 60⌉

/- The match-GNSS handlers and the mutations that re-trigger them. -/

/-- The derivation `int(gnssNumSamplesSpinBox.value() / rate / 2)` from
`onLightMatchGnssClicked`. -/
def gnssDerivedLight (g r : Nat) : ℤ := ⌊((g : ℚ) / (r : ℚ)) / 2⌋

/-- The derivation `int(gnssNumSamplesSpinBox.value() / rate)` from
`onTurbidityMatchGnssClicked`. -/
def gnssDerivedTurbidity (g r : Nat) : ℤ := ⌊(g : ℚ) / (r : ℚ)⌋

/-- The Qt `QSpinBox.setValue` method bounds its argument into the `[lo, hi]` range of the
spin box. -/
def qtSetValue (lo hi : Nat) (v : ℤ) : Nat := (max (lo : ℤ) (min (hi : ℤ) v)).toNat

/-- The handler `onLightMatchGnssClicked`: when the match-GNSS check box is checked the
light spin box (range 1–1800) receives the GNSS-derived sample count. -/
def onLightMatchGnssClicked (p : ParameterSet) : ParameterSet :=
  if p.light_match_gnss = true then
    { p with light_samples :=
        qtSetValue 1 1800 (gnssDerivedLight p.gnss_samples_per_window p.gnss_sample_rate_hz) }
  else p

/-- The handler `onTurbidityMatchGnssClicked`: when the match-GNSS check box is checked
the turbidity spin box (range 1–3600) receives the GNSS-derived sample
count. -/
def onTurbidityMatchGnssClicked (p : ParameterSet) : ParameterSet :=
  if p.turbidity_match_gnss = true then
    { p with turbidity_samples :=
        qtSetValue 1 3600 (gnssDerivedTurbidity p.gnss_samples_per_window p.gnss_sample_rate_hz) }
  else p

/-- Mutation of the GNSS sample-count spin box: on an actual change the
`valueChanged` signal runs `onLightMatchGnssClicked` then
`onTurbidityMatchGnssClicked` (connection order in `connectUIElements`). -/
def setGnssNumSamples (p : ParameterSet) (v : Nat) : ParameterSet :=
  if v = p.gnss_samples_per_window then p
  else
    onTurbidityMatchGnssClicked
      (onLightMatchGnssClicked { p with gnss_samples_per_window := v })

/-- Mutation of the GNSS sample-rate combo box: on an actual change the
`currentIndexChanged` signal runs `onLightMatchGnssClicked` then
`onTurbidityMatchGnssClicked`. -/
def setGnssSampleRate (p : ParameterSet) (v : Nat) : ParameterSet :=
  if v = p.gnss_sample_rate_hz then p
  else
    onTurbidityMatchGnssClicked
      (onLightMatchGnssClicked { p with gnss_sample_rate_hz := v })

/- The binary encoder: `assembleBinaryConfigFile`, built on a model of
`struct.pack` with format `<LLLLLLLLLL??????B11s9s`. -/

/-- One `struct.pack` format item of the configuration record. -/
inductive PackItem where
  | u32 (v : Nat)
  | boolByte (b : Bool)
  | u8 (v : Nat)
  | str (width : Nat) (s : List Nat)
deriving Repr, DecidableEq

/-- Little-endian bytes of a 32-bit value. -/
def u32le (v : Nat) : List Nat :=
  [v % 256, v / 256 % 256, v / 256 ^ 2 % 256, v / 256 ^ 3 % 256]

/-- Bytes of one format item; `none` models the `struct.error` raised when a
numeric value does not fit the declared width ("argument out of range").
An `s` item pads with null bytes up to the field width. -/
def packItem : PackItem → Option (List Nat)
  | PackItem.u32 v => if v < 2 ^ 32 then some (u32le v) else none
  | PackItem.boolByte b => some [if b then 1 else 0]
  | PackItem.u8 v => if v < 256 then some [v] else none
  | PackItem.str w s => some (s.take w ++ List.replicate (w - s.length) 0)

/-- The model of `struct.pack`: concatenation of the item encodings, failing if any item
fails. -/
def structPack : List PackItem → Option (List Nat)
  | [] => some []
  | it :: rest => do
      let b ← packItem it
      let bs ← structPack rest
      pure (b ++ bs)

/-- The encoder `assembleBinaryConfigFile`, embedded from the source.  `dateBytes` and
`timeBytes` stand for the null-terminated `strftime` outputs captured at
encode time ("MM/DD/YYYY\x00", 11 bytes, and "HH:MM:SS\x00", 9 bytes);
`major` / `minor` are the firmware version constants. -/
def assembleBinaryConfigFile (p : ParameterSet) (major minor : Nat)
    (dateBytes timeBytes : List Nat) : Option (List Nat) :=
  structPack
    [ PackItem.u32 p.tracking_number,
      PackItem.u32 p.gnss_samples_per_window,
      PackItem.u32 p.duty_cycle_minutes,
      PackItem.u32 p.iridium_tx_minutes,
      PackItem.u32 p.gnss_max_acquisition_minutes,
      PackItem.u32 p.gnss_sample_rate_hz,
      PackItem.u32 p.ct_samples,
      PackItem.u32 p.temp_samples,
      PackItem.u32 p.light_samples,
      PackItem.u32 p.turbidity_samples,
      PackItem.boolByte p.iridium_modem_is_v3f,
      PackItem.boolByte p.gnss_high_performance_mode,
      PackItem.boolByte p.ct_enabled,
      PackItem.boolByte p.temperature_enabled,
      PackItem.boolByte p.light_enabled,
      PackItem.boolByte p.turbidity_enabled,
      PackItem.u8 (major ||| (minor <<< 4)),
      PackItem.str 11 dateBytes,
      PackItem.str 9 timeBytes ]

/- Concrete parameter sets used as witnesses. -/

/-- The form defaults: every spin box at the value installed by `setupUi`,
every optional sensor disabled. -/
def defaultParams : ParameterSet :=
  { tracking_number := 100
    gnss_samples_per_window := 4096
    duty_cycle_minutes := 30
    iridium_tx_minutes := 5
    gnss_max_acquisition_minutes := 5
    gnss_sample_rate_hz := 4
    ct_samples := 10
    temp_samples := 10
    light_samples := 512
    turbidity_samples := 1024
    iridium_modem_is_v3f := false
    gnss_high_performance_mode := false
    ct_enabled := false
    temperature_enabled := false
    light_enabled := false
    turbidity_enabled := false
    light_match_gnss := false
    turbidity_match_gnss := false }

/-- Defaults with a 10-minute duty cycle (specification scenario 2). -/
def shortDutyParams : ParameterSet :=
  { defaultParams with duty_cycle_minutes := 10 }

/-- Defaults with the light sensor enabled. -/
def lightParams : ParameterSet :=
  { defaultParams with light_enabled := true }

/-- Defaults with the turbidity sensor enabled. -/
def turbidityParams : ParameterSet :=
  { defaultParams with turbidity_enabled := true }

/-- Defaults with the CT sensor enabled. -/
def ctParams : ParameterSet :=
  { defaultParams with ct_enabled := true }

/-- Defaults with both match-GNSS boxes checked (and both sensors on). -/
def matchGnssParams : ParameterSet :=
  { defaultParams with
      light_enabled := true, light_match_gnss := true,
      turbidity_enabled := true, turbidity_match_gnss := true }

/-- A variation of the defaults in the validator-irrelevant fields only. -/
def variedIrrelevantParams : ParameterSet :=
  { defaultParams with
      tracking_number := 999, temp_samples := 77, temperature_enabled := true,
      gnss_high_performance_mode := true, iridium_modem_is_v3f := true }

/-- Defaults with a tracking number that does not fit 32 bits. -/
def overflowParams : ParameterSet :=
  { defaultParams with tracking_number := 4294967296 }

/-- "01/01/2025" with the terminating null, as bytes. -/
def dateBytesEx : List Nat := [48, 49, 47, 48, 49, 47, 50, 48, 50, 53, 0]

/-- "12:00:00" with the terminating null, as bytes. -/
def timeBytesEx : List Nat := [49, 50, 58, 48, 48, 58, 48, 48, 0]

/-! Helper lemmas. -/

/-- The floor of a quotient of natural casts is natural division. -/
theorem int_floor_nat_div (a b : ℕ) : ⌊(a : ℚ) / (b : ℚ)⌋ = ((a / b : ℕ) : ℤ) := by
  have h1 := Rat.floor_intCast_div_natCast (a : ℤ) b
  simp only [Int.cast_natCast] at h1
  rw [h1, Int.natCast_div]

/-- The floor of a quotient of natural casts halved is iterated natural
division. -/
theorem int_floor_nat_div2 (a b : ℕ) : ⌊(a : ℚ) / (b : ℚ) / 2⌋ = ((a / b / 2 : ℕ) : ℤ) := by
  have h2 : (a : ℚ) / (b : ℚ) / 2 = (a : ℚ) / ((b * 2 : ℕ) : ℚ) := by
    push_cast
    rw [div_div]
  rw [h2, int_floor_nat_div, Nat.div_div_eq_div_mul]

/-- Clamping a natural value through the integer-valued spin box model. -/
theorem qtSetValue_natCast (lo hi k : Nat) : qtSetValue lo hi (k : ℤ) = max lo (min hi k) := by
  unfold qtSetValue
  omega

/-- Sequential accumulation over abstract rule conditions equals the
concatenation of the per-rule segments, with the invalid flag the
disjunction of the conditions. -/
theorem chainEq (A B L C D T E F : Prop)
    [Decidable A] [Decidable B] [Decidable L] [Decidable C] [Decidable D]
    [Decidable T] [Decidable E] [Decidable F]
    (m1 m2 m3 m4 m5 m6 : String) :
    (let st1 : List String × Bool := if A then ([m1], true) else ([], false)
     let st2 : List String × Bool := if B then (st1.1 ++ [m2], true) else st1
     let st3 : List String × Bool :=
       if L then
         let st3a : List String × Bool := if C then (st2.1 ++ [m3], true) else st2
         if D then (st3a.1 ++ [m4], true) else st3a
       else st2
     let st4 : List String × Bool :=
       if T then
         let st4a : List String × Bool := if E then (st3.1 ++ [m5], true) else st3
         if F then (st4a.1 ++ [m6], true) else st4a
       else st3
     st4) =
    ((if A then [m1] else []) ++ (if B then [m2] else []) ++
       ((if L ∧ C then [m3] else []) ++ (if L ∧ D then [m4] else [])) ++
       ((if T ∧ E then [m5] else []) ++ (if T ∧ F then [m6] else [])),
     (decide A || decide B || decide (L ∧ C) || decide (L ∧ D) ||
       decide (T ∧ E) || decide (T ∧ F))) := by
  by_cases hA : A <;> by_cases hB : B <;> by_cases hL : L <;> by_cases hC : C <;>
    by_cases hD : D <;> by_cases hT : T <;> by_cases hE : E <;> by_cases hF : F <;>
    simp [hA, hB, hL, hC, hD, hT, hE, hF]

/-- The validator `verifySettings` in closed form: the diagnostics are the concatenation of
one independent segment per rule, and the invalid flag is their
disjunction. -/
theorem verifySettings_eq (p : ParameterSet) :
    verifySettings p =
      ((if gnssWindowFail p then [gnssWindowMsg] else []) ++
         (if ctWindowFail p then [ctWindowMsg] else []) ++
         ((if lightWindowFail p then [lightWindowMsg] else []) ++
           (if lightMaxFail p then [lightMaxMsg] else [])) ++
         ((if turbidityWindowFail p then [turbidityWindowMsg] else []) ++
           (if turbidityMaxFail p then [turbidityMaxMsg] else [])),
       (decide (gnssWindowFail p) || decide (ctWindowFail p) ||
         decide (lightWindowFail p) || decide (lightMaxFail p) ||
         decide (turbidityWindowFail p) || decide (turbidityMaxFail p))) := by
  unfold gnssWindowFail ctWindowFail lightWindowFail lightMaxFail
    turbidityWindowFail turbidityMaxFail
  exact chainEq _ _ _ _ _ _ _ _ gnssWindowMsg ctWindowMsg lightWindowMsg
    lightMaxMsg turbidityWindowMsg turbidityMaxMsg

theorem mem_ite_singleton (C : Prop) [Decidable C] (a m : String) :
    (a ∈ if C then [m] else []) ↔ C ∧ a = m := by
  by_cases h : C <;> simp [h]

theorem gnssWindowMsg_mem_iff (p : ParameterSet) :
    gnssWindowMsg ∈ (verifySettings p).1 ↔ gnssWindowFail p := by
  rw [verifySettings_eq]
  simp only [List.mem_append, mem_ite_singleton]
  simp [gnssWindowMsg, ctWindowMsg, lightWindowMsg, lightMaxMsg,
    turbidityWindowMsg, turbidityMaxMsg]

theorem ctWindowMsg_mem_iff (p : ParameterSet) :
    ctWindowMsg ∈ (verifySettings p).1 ↔ ctWindowFail p := by
  rw [verifySettings_eq]
  simp only [List.mem_append, mem_ite_singleton]
  simp [gnssWindowMsg, ctWindowMsg, lightWindowMsg, lightMaxMsg,
    turbidityWindowMsg, turbidityMaxMsg]

theorem lightWindowMsg_mem_iff (p : ParameterSet) :
    lightWindowMsg ∈ (verifySettings p).1 ↔ lightWindowFail p := by
  rw [verifySettings_eq]
  simp only [List.mem_append, mem_ite_singleton]
  simp [gnssWindowMsg, ctWindowMsg, lightWindowMsg, lightMaxMsg,
    turbidityWindowMsg, turbidityMaxMsg]

theorem lightMaxMsg_mem_iff (p : ParameterSet) :
    lightMaxMsg ∈ (verifySettings p).1 ↔ lightMaxFail p := by
  rw [verifySettings_eq]
  simp only [List.mem_append, mem_ite_singleton]
  simp [gnssWindowMsg, ctWindowMsg, lightWindowMsg, lightMaxMsg,
    turbidityWindowMsg, turbidityMaxMsg]

theorem turbidityWindowMsg_mem_iff (p : ParameterSet) :
    turbidityWindowMsg ∈ (verifySettings p).1 ↔ turbidityWindowFail p := by
  rw [verifySettings_eq]
  simp only [List.mem_append, mem_ite_singleton]
  simp [gnssWindowMsg, ctWindowMsg, lightWindowMsg, lightMaxMsg,
    turbidityWindowMsg, turbidityMaxMsg]

theorem turbidityMaxMsg_mem_iff (p : ParameterSet) :
    turbidityMaxMsg ∈ (verifySettings p).1 ↔ turbidityMaxFail p := by
  rw [verifySettings_eq]
  simp only [List.mem_append, mem_ite_singleton]
  simp [gnssWindowMsg, ctWindowMsg, lightWindowMsg, lightMaxMsg,
    turbidityWindowMsg, turbidityMaxMsg]

/-! Claim theorems. -/

/-- C2: for a non-zero sample rate, the GNSS-window diagnostic is produced
exactly when `duty_cycle_minutes - gnss_duration - iridium_tx_minutes < 0`
with `gnss_duration = ceil_minutes(samples / rate) + 1 + acquisition`, and
this rule is evaluated regardless of any sensor enable flag. -/
theorem claim2_gnss_budget (p : ParameterSet) (hr : 0 < p.gnss_sample_rate_hz) :
    gnssWindowMsg ∈ (verifySettings p).1 ↔
      (p.duty_cycle_minutes : ℤ) -
          (ceil_minutes ((p.gnss_samples_per_window : ℚ) / (p.gnss_sample_rate_hz : ℚ)) + 1 +
            (p.gnss_max_acquisition_minutes : ℤ)) -
          (p.iridium_tx_minutes : ℤ) < 0 := by
  rw [gnssWindowMsg_mem_iff]
  unfold gnssWindowFail ceil_minutes
  constructor
  · intro h
    have h2 : (p.duty_cycle_minutes : ℤ) - 1 - p.gnss_max_acquisition_minutes -
        p.iridium_tx_minutes <
        ⌈(p.gnss_samples_per_window : ℚ) / (p.gnss_sample_rate_hz : ℚ) / 60⌉ := by
      rw [Int.lt_ceil]
      push_cast
      linarith
    linarith
  · intro h
    have h2 : (p.duty_cycle_minutes : ℤ) - 1 - p.gnss_max_acquisition_minutes -
        p.iridium_tx_minutes <
        ⌈(p.gnss_samples_per_window : ℚ) / (p.gnss_sample_rate_hz : ℚ) / 60⌉ := by
      linarith
    rw [Int.lt_ceil] at h2
    push_cast at h2
    linarith

/-- C2 witness: specification scenario 2, a 10-minute duty cycle. -/
theorem claim2_gnss_budget_witness :
    0 < shortDutyParams.gnss_sample_rate_hz ∧
    (gnssWindowMsg ∈ (verifySettings shortDutyParams).1 ↔
      (shortDutyParams.duty_cycle_minutes : ℤ) -
          (ceil_minutes ((shortDutyParams.gnss_samples_per_window : ℚ) /
              (shortDutyParams.gnss_sample_rate_hz : ℚ)) + 1 +
            (shortDutyParams.gnss_max_acquisition_minutes : ℤ)) -
          (shortDutyParams.iridium_tx_minutes : ℤ) < 0) :=
  ⟨by decide, claim2_gnss_budget shortDutyParams (by decide)⟩

/-- C4: every rule is evaluated; the diagnostics are the concatenation of
one segment per failing rule (independent failures co-occur), and the
verdict is Valid (`settings_invalid = false`) exactly when no diagnostic was
produced. -/
theorem claim4_rules_accumulate (p : ParameterSet) :
    (verifySettings p).1 =
      (if gnssWindowFail p then [gnssWindowMsg] else []) ++
        (if ctWindowFail p then [ctWindowMsg] else []) ++
        ((if lightWindowFail p then [lightWindowMsg] else []) ++
          (if lightMaxFail p then [lightMaxMsg] else [])) ++
        ((if turbidityWindowFail p then [turbidityWindowMsg] else []) ++
          (if turbidityMaxFail p then [turbidityMaxMsg] else [])) ∧
    ((verifySettings p).2 = false ↔ (verifySettings p).1 = []) := by
  have h := verifySettings_eq p
  constructor
  · rw [h]
  · rw [h]
    by_cases h1 : gnssWindowFail p <;> by_cases h2 : ctWindowFail p <;>
      by_cases h3 : lightWindowFail p <;> by_cases h4 : lightMaxFail p <;>
      by_cases h5 : turbidityWindowFail p <;> by_cases h6 : turbidityMaxFail p <;>
      simp [h1, h2, h3, h4, h5, h6]

/-- C5: with the light sensor enabled, the light duty-cycle diagnostic is
produced exactly when `duty - (light_samples/30 + 1) - iridium < 0`, and the
light-ceiling diagnostic exactly when the GNSS-derived light count
`floor(samples / rate / 2)` exceeds 1800 — independent of
`light_match_gnss`. -/
theorem claim5_light_budget (p : ParameterSet) (hr : 0 < p.gnss_sample_rate_hz)
    (hl : p.light_enabled = true) :
    (lightWindowMsg ∈ (verifySettings p).1 ↔
      (p.duty_cycle_minutes : ℚ) - ((p.light_samples : ℚ) / 30 + 1) -
        (p.iridium_tx_minutes : ℚ) < 0) ∧
    (lightMaxMsg ∈ (verifySettings p).1 ↔
      1800 < p.gnss_samples_per_window / p.gnss_sample_rate_hz / 2) := by
  constructor
  · rw [lightWindowMsg_mem_iff]
    unfold lightWindowFail
    simp [hl]
  · rw [lightMaxMsg_mem_iff]
    unfold lightMaxFail
    rw [int_floor_nat_div2]
    simp only [hl, true_and, gt_iff_lt]
    exact_mod_cast Iff.rfl

/-- C5 witness: light sensor enabled at the form defaults. -/
theorem claim5_light_budget_witness :
    0 < lightParams.gnss_sample_rate_hz ∧ lightParams.light_enabled = true ∧
    ((lightWindowMsg ∈ (verifySettings lightParams).1 ↔
      (lightParams.duty_cycle_minutes : ℚ) - ((lightParams.light_samples : ℚ) / 30 + 1) -
        (lightParams.iridium_tx_minutes : ℚ) < 0) ∧
    (lightMaxMsg ∈ (verifySettings lightParams).1 ↔
      1800 < lightParams.gnss_samples_per_window / lightParams.gnss_sample_rate_hz / 2)) :=
  ⟨by decide, rfl, claim5_light_budget lightParams (by decide) rfl⟩

/-- C6: with the turbidity sensor enabled, the turbidity duty-cycle
diagnostic is produced exactly when `duty - (turbidity_samples/60 + 1) -
iridium < 0`, and the turbidity-ceiling diagnostic exactly when the
GNSS-derived turbidity count `floor(samples / rate)` exceeds 3600 —
independent of `turbidity_match_gnss`. -/
theorem claim6_turbidity_budget (p : ParameterSet) (hr : 0 < p.gnss_sample_rate_hz)
    (ht : p.turbidity_enabled = true) :
    (turbidityWindowMsg ∈ (verifySettings p).1 ↔
      (p.duty_cycle_minutes : ℚ) - ((p.turbidity_samples : ℚ) / 60 + 1) -
        (p.iridium_tx_minutes : ℚ) < 0) ∧
    (turbidityMaxMsg ∈ (verifySettings p).1 ↔
      3600 < p.gnss_samples_per_window / p.gnss_sample_rate_hz) := by
  constructor
  · rw [turbidityWindowMsg_mem_iff]
    unfold turbidityWindowFail
    simp [ht]
  · rw [turbidityMaxMsg_mem_iff]
    unfold turbidityMaxFail
    rw [int_floor_nat_div]
    simp only [ht, true_and, gt_iff_lt]
    exact_mod_cast Iff.rfl

/-- C6 witness: turbidity sensor enabled at the form defaults. -/
theorem claim6_turbidity_budget_witness :
    0 < turbidityParams.gnss_sample_rate_hz ∧ turbidityParams.turbidity_enabled = true ∧
    ((turbidityWindowMsg ∈ (verifySettings turbidityParams).1 ↔
      (turbidityParams.duty_cycle_minutes : ℚ) -
        ((turbidityParams.turbidity_samples : ℚ) / 60 + 1) -
        (turbidityParams.iridium_tx_minutes : ℚ) < 0) ∧
    (turbidityMaxMsg ∈ (verifySettings turbidityParams).1 ↔
      3600 < turbidityParams.gnss_samples_per_window / turbidityParams.gnss_sample_rate_hz)) :=
  ⟨by decide, rfl, claim6_turbidity_budget turbidityParams (by decide) rfl⟩

/-- C7: the CT diagnostic is produced exactly when the CT sensor is enabled
and `(ct_samples*2 + 20)/60 > 2`; in particular with `ct_enabled = false` it
is never produced. -/
theorem claim7_ct_budget (p : ParameterSet) :
    ctWindowMsg ∈ (verifySettings p).1 ↔
      (p.ct_enabled = true ∧ (((p.ct_samples : ℚ) * 2) + 20) / 60 > 2) := by
  rw [ctWindowMsg_mem_iff]
  unfold ctWindowFail
  exact Iff.rfl

/-- C10: `verifySettings` does not read `temperature_enabled`,
`temp_samples`, `tracking_number`, `gnss_high_performance_mode` or the
Iridium modem type: two parameter sets that agree on every other field get
the same diagnostics and verdict. -/
theorem claim10_irrelevant_fields (p q : ParameterSet)
    (h1 : p.gnss_samples_per_window = q.gnss_samples_per_window)
    (h2 : p.duty_cycle_minutes = q.duty_cycle_minutes)
    (h3 : p.iridium_tx_minutes = q.iridium_tx_minutes)
    (h4 : p.gnss_max_acquisition_minutes = q.gnss_max_acquisition_minutes)
    (h5 : p.gnss_sample_rate_hz = q.gnss_sample_rate_hz)
    (h6 : p.ct_samples = q.ct_samples)
    (h7 : p.light_samples = q.light_samples)
    (h8 : p.turbidity_samples = q.turbidity_samples)
    (h9 : p.ct_enabled = q.ct_enabled)
    (h10 : p.light_enabled = q.light_enabled)
    (h11 : p.turbidity_enabled = q.turbidity_enabled)
    (h12 : p.light_match_gnss = q.light_match_gnss)
    (h13 : p.turbidity_match_gnss = q.turbidity_match_gnss) :
    verifySettings p = verifySettings q := by
  simp only [verifySettings]
  rw [h1, h2, h3, h4, h5, h6, h7, h8, h9, h10, h11]

/-- C10 witness: the defaults against a variation in the five
validator-irrelevant fields only. -/
theorem claim10_irrelevant_fields_witness :
    defaultParams.temperature_enabled ≠ variedIrrelevantParams.temperature_enabled ∧
    defaultParams.temp_samples ≠ variedIrrelevantParams.temp_samples ∧
    defaultParams.tracking_number ≠ variedIrrelevantParams.tracking_number ∧
    defaultParams.gnss_high_performance_mode ≠ variedIrrelevantParams.gnss_high_performance_mode ∧
    defaultParams.iridium_modem_is_v3f ≠ variedIrrelevantParams.iridium_modem_is_v3f ∧
    verifySettings defaultParams = verifySettings variedIrrelevantParams :=
  ⟨by decide, by decide, by decide, by decide, by decide,
    claim10_irrelevant_fields defaultParams variedIrrelevantParams
      rfl rfl rfl rfl rfl rfl rfl rfl rfl rfl rfl rfl rfl⟩

theorem except_ok_bind {ε α β : Type} (x : α) (f : α → Except ε β) :
    (Except.ok x >>= f) = f x := rfl

/-- C9: on the declared input domain (all fields in their widget ranges,
sample rate one of the enumerated values 4 or 5) the validator never
raises — the division-aware model returns exactly the pure verdict. -/
theorem claim9_validator_total (p : ParameterSet) (hp : InRange p) :
    verifySettingsE p = Except.ok (verifySettings p) := by
  obtain ⟨-, -, -, -, -, -, -, -, hrate, -⟩ := hp
  have hr : (p.gnss_sample_rate_hz : ℚ) ≠ 0 := by
    rcases hrate with h | h <;> rw [h] <;> norm_num
  simp only [verifySettingsE, verifySettings, pyDiv, if_neg hr]
  cases hl : p.light_enabled <;> cases ht : p.turbidity_enabled <;>
    simp [hl, ht, except_ok_bind]

/-- C9 witness: the form defaults are in range and validate without an
exception. -/
theorem claim9_validator_total_witness :
    InRange defaultParams ∧
    verifySettingsE defaultParams = Except.ok (verifySettings defaultParams) :=
  ⟨by decide, claim9_validator_total defaultParams (by decide)⟩

/-- C3 counterexample: with the match-GNSS box checked, mutating the GNSS
sample count to 32768 at 4 Hz leaves `light_samples = 1800` (the spin box
clamps to its 1–1800 range), not the claimed `floor(32768/4/2) = 4096`. -/
theorem claim3_counterexample :
    matchGnssParams.light_match_gnss = true ∧
    (setGnssNumSamples matchGnssParams 32768).light_samples ≠
      (setGnssNumSamples matchGnssParams 32768).gnss_samples_per_window /
        (setGnssNumSamples matchGnssParams 32768).gnss_sample_rate_hz / 2 := by
  refine ⟨rfl, ?_⟩
  have h1 := int_floor_nat_div 32768 4
  have h2 := int_floor_nat_div2 32768 4
  push_cast at h1 h2
  simp [setGnssNumSamples, onLightMatchGnssClicked, onTurbidityMatchGnssClicked,
    gnssDerivedLight, gnssDerivedTurbidity, qtSetValue, matchGnssParams, defaultParams,
    h1, h2]

/-- C3 amended: after a mutation of `gnss_samples_per_window` or
`gnss_sample_rate_hz`, a match-GNSS sensor field holds the derived value
clamped into its spin box range — `light_samples = clamp(1, 1800,
floor(samples/rate/2))` and `turbidity_samples = clamp(1, 3600,
floor(samples/rate))`; the derived value itself whenever it lies inside the
range. -/
theorem claim3_amended (p : ParameterSet) (v : Nat) :
    ((p.light_match_gnss = true → v ≠ p.gnss_samples_per_window →
        (setGnssNumSamples p v).light_samples =
          max 1 (min 1800 (v / p.gnss_sample_rate_hz / 2))) ∧
      (p.light_match_gnss = true → v ≠ p.gnss_sample_rate_hz →
        (setGnssSampleRate p v).light_samples =
          max 1 (min 1800 (p.gnss_samples_per_window / v / 2)))) ∧
    ((p.turbidity_match_gnss = true → v ≠ p.gnss_samples_per_window →
        (setGnssNumSamples p v).turbidity_samples =
          max 1 (min 3600 (v / p.gnss_sample_rate_hz))) ∧
      (p.turbidity_match_gnss = true → v ≠ p.gnss_sample_rate_hz →
        (setGnssSampleRate p v).turbidity_samples =
          max 1 (min 3600 (p.gnss_samples_per_window / v)))) := by
  refine ⟨⟨?_, ?_⟩, ?_, ?_⟩
  · intro hm hv
    unfold setGnssNumSamples
    rw [if_neg hv]
    by_cases hm2 : p.turbidity_match_gnss = true <;>
      simp [onLightMatchGnssClicked, onTurbidityMatchGnssClicked, hm, hm2, gnssDerivedLight]
    all_goals rw [int_floor_nat_div2, qtSetValue_natCast]
  · intro hm hv
    unfold setGnssSampleRate
    rw [if_neg hv]
    by_cases hm2 : p.turbidity_match_gnss = true <;>
      simp [onLightMatchGnssClicked, onTurbidityMatchGnssClicked, hm, hm2, gnssDerivedLight]
    all_goals rw [int_floor_nat_div2, qtSetValue_natCast]
  · intro hm hv
    unfold setGnssNumSamples
    rw [if_neg hv]
    by_cases hm2 : p.light_match_gnss = true <;>
      simp [onLightMatchGnssClicked, onTurbidityMatchGnssClicked, hm, hm2, gnssDerivedTurbidity]
    all_goals rw [int_floor_nat_div, qtSetValue_natCast]
  · intro hm hv
    unfold setGnssSampleRate
    rw [if_neg hv]
    by_cases hm2 : p.light_match_gnss = true <;>
      simp [onLightMatchGnssClicked, onTurbidityMatchGnssClicked, hm, hm2, gnssDerivedTurbidity]
    all_goals rw [int_floor_nat_div, qtSetValue_natCast]

/-- C3 amended witness: both match boxes checked, sample count mutated to
32768 at 4 Hz; the stored values are the clamped derivations. -/
theorem claim3_amended_witness :
    matchGnssParams.light_match_gnss = true ∧
    matchGnssParams.turbidity_match_gnss = true ∧
    (32768 : Nat) ≠ matchGnssParams.gnss_samples_per_window ∧
    (setGnssNumSamples matchGnssParams 32768).light_samples =
      max 1 (min 1800 (32768 / matchGnssParams.gnss_sample_rate_hz / 2)) ∧
    (setGnssNumSamples matchGnssParams 32768).turbidity_samples =
      max 1 (min 3600 (32768 / matchGnssParams.gnss_sample_rate_hz)) :=
  ⟨rfl, rfl, by decide,
    (claim3_amended matchGnssParams 32768).1.1 rfl (by decide),
    (claim3_amended matchGnssParams 32768).2.1 rfl (by decide)⟩

theorem option_some_bind {α β : Type} (x : α) (f : α → Option β) :
    (some x >>= f) = f x := rfl

theorem option_none_bind {α β : Type} (f : α → Option β) :
    ((none : Option α) >>= f) = none := rfl

/-- If any format item of a pack list fails, the whole pack fails. -/
theorem structPack_eq_none (its : List PackItem) (it : PackItem)
    (hmem : it ∈ its) (hfail : packItem it = none) : structPack its = none := by
  induction its with
  | nil => cases hmem
  | cons hd tl ih =>
    rcases List.mem_cons.mp hmem with h | h
    · subst h
      simp [structPack, hfail, option_none_bind]
    · cases hpk : packItem hd
      · simp [structPack, hpk, option_none_bind]
      · simp [structPack, hpk, ih h, option_some_bind, option_none_bind]

/-- C8: a field value that does not fit its declared binary width (a `u32`
field at or above `2^32`, or a version byte at or above 256) makes the
encoder fail with an error (`none`, the raised `struct.error`) instead of
producing truncated or clamped bytes. -/
theorem claim8_encode_range_error (p : ParameterSet) (major minor : Nat)
    (dateBytes timeBytes : List Nat)
    (h : 2 ^ 32 ≤ p.tracking_number ∨ 2 ^ 32 ≤ p.gnss_samples_per_window ∨
      2 ^ 32 ≤ p.duty_cycle_minutes ∨ 2 ^ 32 ≤ p.iridium_tx_minutes ∨
      2 ^ 32 ≤ p.gnss_max_acquisition_minutes ∨ 2 ^ 32 ≤ p.gnss_sample_rate_hz ∨
      2 ^ 32 ≤ p.ct_samples ∨ 2 ^ 32 ≤ p.temp_samples ∨
      2 ^ 32 ≤ p.light_samples ∨ 2 ^ 32 ≤ p.turbidity_samples ∨
      256 ≤ (major ||| (minor <<< 4))) :
    assembleBinaryConfigFile p major minor dateBytes timeBytes = none := by
  unfold assembleBinaryConfigFile
  rcases h with h|h|h|h|h|h|h|h|h|h|h
  · exact structPack_eq_none _ (PackItem.u32 p.tracking_number) (by simp)
      (by simp only [packItem]; exact if_neg (by omega))
  · exact structPack_eq_none _ (PackItem.u32 p.gnss_samples_per_window) (by simp)
      (by simp only [packItem]; exact if_neg (by omega))
  · exact structPack_eq_none _ (PackItem.u32 p.duty_cycle_minutes) (by simp)
      (by simp only [packItem]; exact if_neg (by omega))
  · exact structPack_eq_none _ (PackItem.u32 p.iridium_tx_minutes) (by simp)
      (by simp only [packItem]; exact if_neg (by omega))
  · exact structPack_eq_none _ (PackItem.u32 p.gnss_max_acquisition_minutes) (by simp)
      (by simp only [packItem]; exact if_neg (by omega))
  · exact structPack_eq_none _ (PackItem.u32 p.gnss_sample_rate_hz) (by simp)
      (by simp only [packItem]; exact if_neg (by omega))
  · exact structPack_eq_none _ (PackItem.u32 p.ct_samples) (by simp)
      (by simp only [packItem]; exact if_neg (by omega))
  · exact structPack_eq_none _ (PackItem.u32 p.temp_samples) (by simp)
      (by simp only [packItem]; exact if_neg (by omega))
  · exact structPack_eq_none _ (PackItem.u32 p.light_samples) (by simp)
      (by simp only [packItem]; exact if_neg (by omega))
  · exact structPack_eq_none _ (PackItem.u32 p.turbidity_samples) (by simp)
      (by simp only [packItem]; exact if_neg (by omega))
  · exact structPack_eq_none _ (PackItem.u8 (major ||| (minor <<< 4))) (by simp)
      (by simp only [packItem]; exact if_neg (by omega))

/-- C8 witness: a tracking number of `2^32` makes the encoder fail. -/
theorem claim8_encode_range_error_witness :
    2 ^ 32 ≤ overflowParams.tracking_number ∧
    assembleBinaryConfigFile overflowParams FIRMWARE_MAJOR_VERSION
      FIRMWARE_MINOR_VERSION dateBytesEx timeBytesEx = none :=
  ⟨by decide,
    claim8_encode_range_error overflowParams FIRMWARE_MAJOR_VERSION
      FIRMWARE_MINOR_VERSION dateBytesEx timeBytesEx (Or.inl (by decide))⟩

/-- C1: for an in-range parameter set the encoder produces exactly the
Variant A layout — ten little-endian u32 fields in the documented order,
six one-byte booleans, the version byte `major ||| (minor <<< 4)`, the
11-byte null-terminated date and the 9-byte null-terminated time — and the
result is always 67 bytes whose first 4 bytes are the little-endian
tracking number. -/
theorem claim1_encode_layout (p : ParameterSet) (major minor : Nat)
    (dateBytes timeBytes : List Nat)
    (hp : InRange p) (hver : (major ||| (minor <<< 4)) < 256)
    (hd : dateBytes.length = 11) (hdz : dateBytes.getLast? = some 0)
    (ht : timeBytes.length = 9) (htz : timeBytes.getLast? = some 0) :
    assembleBinaryConfigFile p major minor dateBytes timeBytes =
      some (u32le p.tracking_number ++ u32le p.gnss_samples_per_window ++
        u32le p.duty_cycle_minutes ++ u32le p.iridium_tx_minutes ++
        u32le p.gnss_max_acquisition_minutes ++ u32le p.gnss_sample_rate_hz ++
        u32le p.ct_samples ++ u32le p.temp_samples ++ u32le p.light_samples ++
        u32le p.turbidity_samples ++
        [if p.iridium_modem_is_v3f then 1 else 0] ++
        [if p.gnss_high_performance_mode then 1 else 0] ++
        [if p.ct_enabled then 1 else 0] ++
        [if p.temperature_enabled then 1 else 0] ++
        [if p.light_enabled then 1 else 0] ++
        [if p.turbidity_enabled then 1 else 0] ++
        [major ||| (minor <<< 4)] ++ dateBytes ++ timeBytes) ∧
    (∀ bs, assembleBinaryConfigFile p major minor dateBytes timeBytes = some bs →
      bs.length = 67 ∧ bs.take 4 = u32le p.tracking_number) := by
  obtain ⟨h1, h2, h3, h4, h5, h6, h7, h8, h9, h10, h11, h12, h13, h14, h15, h16, h17⟩ := hp
  have ha : p.tracking_number < 4294967296 := by omega
  have hb : p.gnss_samples_per_window < 4294967296 := by omega
  have hc : p.duty_cycle_minutes < 4294967296 := by omega
  have hdd : p.iridium_tx_minutes < 4294967296 := by omega
  have he : p.gnss_max_acquisition_minutes < 4294967296 := by omega
  have hf : p.gnss_sample_rate_hz < 4294967296 := by rcases h9 with h | h <;> omega
  have hg : p.ct_samples < 4294967296 := by omega
  have hh : p.temp_samples < 4294967296 := by omega
  have hi : p.light_samples < 4294967296 := by omega
  have hj : p.turbidity_samples < 4294967296 := by omega
  have hdt : dateBytes.take 11 = dateBytes := by
    rw [← hd]
    exact List.take_length dateBytes
  have htt : timeBytes.take 9 = timeBytes := by
    rw [← ht]
    exact List.take_length timeBytes
  have henc : assembleBinaryConfigFile p major minor dateBytes timeBytes =
      some (u32le p.tracking_number ++ u32le p.gnss_samples_per_window ++
        u32le p.duty_cycle_minutes ++ u32le p.iridium_tx_minutes ++
        u32le p.gnss_max_acquisition_minutes ++ u32le p.gnss_sample_rate_hz ++
        u32le p.ct_samples ++ u32le p.temp_samples ++ u32le p.light_samples ++
        u32le p.turbidity_samples ++
        [if p.iridium_modem_is_v3f then 1 else 0] ++
        [if p.gnss_high_performance_mode then 1 else 0] ++
        [if p.ct_enabled then 1 else 0] ++
        [if p.temperature_enabled then 1 else 0] ++
        [if p.light_enabled then 1 else 0] ++
        [if p.turbidity_enabled then 1 else 0] ++
        [major ||| (minor <<< 4)] ++ dateBytes ++ timeBytes) := by
    simp [assembleBinaryConfigFile, structPack, packItem, option_some_bind,
      ha, hb, hc, hdd, he, hf, hg, hh, hi, hj, hver, hd, ht, hdt, htt,
      List.append_assoc]
  refine ⟨henc, ?_⟩
  intro bs hbs
  rw [henc, Option.some_inj] at hbs
  subst hbs
  constructor
  · simp [u32le, hd, ht]
  · simp [u32le, List.append_assoc]

/-- C1 witness: the form defaults with the firmware version constants and a
fixed encode-time date and time. -/
theorem claim1_encode_layout_witness :
    InRange defaultParams ∧
    (FIRMWARE_MAJOR_VERSION ||| (FIRMWARE_MINOR_VERSION <<< 4)) < 256 ∧
    dateBytesEx.length = 11 ∧ dateBytesEx.getLast? = some 0 ∧
    timeBytesEx.length = 9 ∧ timeBytesEx.getLast? = some 0 ∧
    (∀ bs, assembleBinaryConfigFile defaultParams FIRMWARE_MAJOR_VERSION
        FIRMWARE_MINOR_VERSION dateBytesEx timeBytesEx = some bs →
      bs.length = 67 ∧ bs.take 4 = u32le defaultParams.tracking_number) :=
  ⟨by decide, by decide, rfl, rfl, rfl, rfl,
    (claim1_encode_layout defaultParams FIRMWARE_MAJOR_VERSION
      FIRMWARE_MINOR_VERSION dateBytesEx timeBytesEx (by decide) (by decide)
      rfl rfl rfl rfl).2⟩
